import Mathlib

/-!
Verification of the snapshot-backup program `snapback.py`.

The program creates timestamped, tagged backup generations of a source tree
(`sync`), seeding each new generation from the lexicographically last existing
generation via a hard-link clone (`cp -a -l`) and then mirroring the source
into it (`rsync`), and afterwards removes the oldest generations beyond a
retention count (`rotate`).  `main` wires the two phases together behind a
platform check, a per-name lock and a destination-directory check, and exits
with the result of the sync phase.

This file is a shallow embedding of that program.  External commands (`cp`,
`rsync`, `shutil.rmtree`) are modelled by their integer return codes /
success flags, which are inputs of the embedded functions; the filesystem
state relevant to the program is the list of generation-directory names that
match the `snapback_<name>_*_<tag>` glob pattern.  Python string comparison
(used by `sorted`) is modelled by code-point lexicographic comparison on the
character lists underlying Lean strings.
-/

namespace Snapback

/-- Strict lexicographic comparison of character lists by Unicode code point,
exactly how Python compares the strings `sorted` orders. -/
def lexLt : List Char → List Char → Bool
  | _, [] => false
  | [], _ :: _ => true
  | a :: as, b :: bs =>
    if a.toNat = b.toNat then lexLt as bs else decide (a.toNat < b.toNat)

/-- Reflexive lexicographic comparison of character lists by code point. -/
def lexLe : List Char → List Char → Bool
  | [], _ => true
  | _ :: _, [] => false
  | a :: as, b :: bs =>
    if a.toNat = b.toNat then lexLe as bs else decide (a.toNat < b.toNat)

/-- Python string comparison `a < b`. -/
def strLt (a b : String) : Bool := lexLt a.data b.data

/-- Python string comparison `a <= b`. -/
def strLe (a b : String) : Bool := lexLe a.data b.data

theorem lexLe_refl (l : List Char) : lexLe l l = true := by
  induction l with
  | nil => rfl
  | cons a as ih => simp [lexLe, ih]

theorem lexLe_total (a b : List Char) : lexLe a b = true ∨ lexLe b a = true := by
  induction a generalizing b with
  | nil => left; rfl
  | cons x xs ih =>
    cases b with
    | nil => right; rfl
    | cons y ys =>
      by_cases hxy : x.toNat = y.toNat
      · rcases ih ys with h | h
        · left; simp [lexLe, hxy, h]
        · right; simp [lexLe, hxy.symm, h]
      · have hyx : ¬ y.toNat = x.toNat := fun h => hxy h.symm
        by_cases hlt : x.toNat < y.toNat
        · left; simp [lexLe, hxy, hlt]
        · right
          simp only [lexLe, if_neg hyx, decide_eq_true_eq]
          omega

theorem lexLe_trans {a b c : List Char} (h1 : lexLe a b = true) (h2 : lexLe b c = true) :
    lexLe a c = true := by
  induction a generalizing b c with
  | nil => rfl
  | cons x xs ih =>
    cases b with
    | nil => simp [lexLe] at h1
    | cons y ys =>
      cases c with
      | nil => simp [lexLe] at h2
      | cons z zs =>
        simp only [lexLe] at h1 h2 ⊢
        by_cases hxy : x.toNat = y.toNat
        · by_cases hyz : y.toNat = z.toNat
          · rw [if_pos hxy] at h1
            rw [if_pos hyz] at h2
            rw [if_pos (hxy.trans hyz)]
            exact ih h1 h2
          · rw [if_neg hyz, decide_eq_true_eq] at h2
            have hxz : ¬ x.toNat = z.toNat := by omega
            rw [if_neg hxz, decide_eq_true_eq]
            omega
        · rw [if_neg hxy, decide_eq_true_eq] at h1
          by_cases hyz : y.toNat = z.toNat
          · have hxz : ¬ x.toNat = z.toNat := by omega
            rw [if_neg hxz, decide_eq_true_eq]
            omega
          · rw [if_neg hyz, decide_eq_true_eq] at h2
            have hxz : ¬ x.toNat = z.toNat := by omega
            rw [if_neg hxz, decide_eq_true_eq]
            omega

theorem strLe_refl (s : String) : strLe s s = true := lexLe_refl s.data

theorem strLe_trans {a b c : String} (h1 : strLe a b = true) (h2 : strLe b c = true) :
    strLe a c = true := lexLe_trans h1 h2

theorem strLe_of_not_strLe {a b : String} (h : ¬ strLe a b = true) : strLe b a = true := by
  rcases lexLe_total a.data b.data with h1 | h1
  · exact absurd h1 h
  · exact h1

/-- Insert a string into a (sorted) list, keeping the order given by `strLe`. -/
def insertSorted (s : String) : List String → List String
  | [] => [s]
  | t :: ts => if strLe s t then s :: t :: ts else t :: insertSorted s ts

/-- Model of Python `sorted` on a list of strings: since code-point comparison
is a linear order in which equal-comparing strings are identical, every
correct sort of the same list produces this same output. -/
def sortStrings : List String → List String
  | [] => []
  | s :: ss => insertSorted s (sortStrings ss)

theorem insertSorted_perm (s : String) (l : List String) :
    List.Perm (insertSorted s l) (s :: l) := by
  induction l with
  | nil => exact List.Perm.refl _
  | cons t ts ih =>
    by_cases h : strLe s t
    · simp [insertSorted, h]
    · simp only [insertSorted, if_neg h]
      exact (ih.cons t).trans (List.Perm.swap s t ts)

theorem sortStrings_perm (l : List String) : List.Perm (sortStrings l) l := by
  induction l with
  | nil => exact List.Perm.refl _
  | cons s ss ih =>
    exact (insertSorted_perm s (sortStrings ss)).trans (ih.cons s)

theorem length_sortStrings (l : List String) : (sortStrings l).length = l.length :=
  (sortStrings_perm l).length_eq

theorem sortStrings_eq_nil_iff (l : List String) : sortStrings l = [] ↔ l = [] := by
  constructor
  · intro h
    have := length_sortStrings l
    rw [h] at this
    exact List.length_eq_zero.mp this.symm
  · intro h; subst h; rfl

theorem insertSorted_pairwise {s : String} {l : List String}
    (h : l.Pairwise (fun a b => strLe a b = true)) :
    (insertSorted s l).Pairwise (fun a b => strLe a b = true) := by
  induction l with
  | nil => simp [insertSorted]
  | cons t ts ih =>
    cases h with
    | cons ht hts =>
      by_cases hst : strLe s t
      · simp only [insertSorted, if_pos hst]
        refine List.Pairwise.cons ?_ (List.Pairwise.cons ht hts)
        intro a ha
        rcases List.mem_cons.mp ha with rfl | ha
        · exact hst
        · exact strLe_trans hst (ht a ha)
      · simp only [insertSorted, if_neg hst]
        refine List.Pairwise.cons ?_ (ih hts)
        intro a ha
        have ha' := (insertSorted_perm s ts).mem_iff.mp ha
        rcases List.mem_cons.mp ha' with rfl | ha'
        · exact strLe_of_not_strLe hst
        · exact ht a ha'

theorem sortStrings_pairwise (l : List String) :
    (sortStrings l).Pairwise (fun a b => strLe a b = true) := by
  induction l with
  | nil => exact List.Pairwise.nil
  | cons s ss ih => exact insertSorted_pairwise ih

theorem pairwise_getLast?_max {l : List String} {p : String}
    (hs : l.Pairwise (fun a b => strLe a b = true)) (hp : l.getLast? = some p) :
    ∀ x ∈ l, strLe x p = true := by
  induction l with
  | nil => simp at hp
  | cons a rest ih =>
    cases rest with
    | nil =>
      simp only [List.getLast?_singleton, Option.some.injEq] at hp
      subst hp
      intro x hx
      rcases List.mem_singleton.mp hx with rfl
      exact strLe_refl x
    | cons b t =>
      rw [List.getLast?_cons_cons] at hp
      cases hs with
      | cons ha hrest =>
        intro x hx
        rcases List.mem_cons.mp hx with rfl | hx
        · exact ha p (List.mem_of_mem_getLast? hp)
        · exact ih hrest hp x hx

/-- The lexicographically last element of the sorted list is a maximum of the
original list. -/
theorem sortStrings_getLast?_max {l : List String} {p : String}
    (hp : (sortStrings l).getLast? = some p) :
    p ∈ l ∧ ∀ x ∈ l, strLe x p = true := by
  constructor
  · exact (sortStrings_perm l).mem_iff.mp (List.mem_of_mem_getLast? hp)
  · intro x hx
    exact pairwise_getLast?_max (sortStrings_pairwise l) hp x
      ((sortStrings_perm l).mem_iff.mpr hx)

/-- Model of Python `str.lower()` on the result of `platform.system()`. -/
def lowerStr (s : String) : String := String.mk (s.data.map Char.toLower)

/-- Model of `os.path.join(a, b)` for the paths the program builds: `b` wins
if absolute, otherwise the parts are joined with a single separator. -/
def joinPath (a b : String) : String :=
  if b.data.head? = some '/' then b
  else if a.data = [] then b
  else if a.data.getLast? = some '/' then a ++ b
  else a ++ "/" ++ b

/-- Directory name of one generation, `"snapback_{}_{}_{}".format(name,
timestamp, tag)` from line 179 of `snapback.py`. -/
def genName (name timestamp tag : String) : String :=
  "snapback_" ++ name ++ "_" ++ timestamp ++ "_" ++ tag

/-- Python `s.rstrip("/")`: remove every trailing slash character. -/
def rstripSlash (s : String) : String :=
  String.mk ((s.data.reverse.dropWhile (fun c => c == '/')).reverse)

/-- Source-path normalization of `sync` line 194: `source.rstrip("/") + "/"`. -/
def normalizeSource (s : String) : String := rstripSlash s ++ "/"

/-- Boolean test that a string ends in exactly one slash: its last character
is `/` and the character before it (if any) is not. -/
def endsInOneSlash (s : String) : Bool :=
  match s.data.reverse with
  | '/' :: rest => !(rest.head? == some '/')
  | _ => false

/-- Local calendar time at second resolution, the input of
`time.strftime` in `sync`.  `hour` is the 24-hour clock value 0..23. -/
structure LocalTime where
  year : Nat
  month : Nat
  day : Nat
  hour : Nat
  minute : Nat
  second : Nat
deriving DecidableEq

/-- Two-digit zero-padded decimal rendering, the `%m`/`%d`/`%I`/`%M`/`%S`
fields of `strftime` (values below 100). -/
def pad2 (n : Nat) : String :=
  String.mk [Nat.digitChar (n / 10 % 10), Nat.digitChar (n % 10)]

/-- Four-digit rendering of the year, the `%Y` field of `strftime`
(years 1000..9999). -/
def pad4 (n : Nat) : String :=
  String.mk [Nat.digitChar (n / 1000 % 10), Nat.digitChar (n / 100 % 10),
    Nat.digitChar (n / 10 % 10), Nat.digitChar (n % 10)]

/-- The `%I` field of `strftime`: the hour on the 12-hour clock, 01..12,
with no AM/PM marker anywhere in the format string. -/
def hour12 (h : Nat) : Nat := (h + 11) % 12 + 1

/-- The timestamp embedded in generation names, `time.strftime("%Y%m%d%I%M%S")`
from line 177 of `snapback.py`.  Note the 12-hour `%I` field. -/
def timestampFmt (t : LocalTime) : String :=
  pad4 t.year ++ pad2 t.month ++ pad2 t.day ++ pad2 (hour12 t.hour) ++
    pad2 t.minute ++ pad2 t.second

/-- Chronological (calendar) strict order on local times. -/
def chronLt (t u : LocalTime) : Bool :=
  if t.year ≠ u.year then decide (t.year < u.year)
  else if t.month ≠ u.month then decide (t.month < u.month)
  else if t.day ≠ u.day then decide (t.day < u.day)
  else if t.hour ≠ u.hour then decide (t.hour < u.hour)
  else if t.minute ≠ u.minute then decide (t.minute < u.minute)
  else decide (t.second < u.second)

/-- Trace of one call of `sync` (lines 163-221 of `snapback.py`).  The codes
`cloneRes` and `rsyncRes` passed to `sync` below are what the external
`cp -a -l` and `rsync` subprocesses return (`launch_command` passes a
subprocess's return code through unchanged); `result` is the value `sync`
returns, and the other fields record which external command lines were
launched and whether the completion sentinel was written. -/
structure SyncTrace where
  predecessor : Option String
  cloneCmd : Option (List String)
  rsyncCmd : Option (List String)
  sentinelWritten : Bool
  result : Int
deriving DecidableEq

/-- Mirroring half of `sync` (lines 192-221): normalize the source path, run
rsync, and on a non-positive return code touch the snapshot and write the
sentinel file `_backup_<date>`; a positive rsync code returns early. -/
def mirrorStep (source current_snapshot : String) (excludes : List String)
    (pred : Option String) (ccmd : Option (List String)) (rsyncRes : Int) : SyncTrace :=
  let src := normalizeSource source
  let cur := current_snapshot ++ "/"
  let cmd := ["rsync", "-va", "--human-readable", "--delete", "--delete-excluded"]
      ++ excludes.map (fun e => "--exclude=" ++ e) ++ [src, cur]
  if rsyncRes > 0 then
    { predecessor := pred, cloneCmd := ccmd, rsyncCmd := some cmd,
      sentinelWritten := false, result := rsyncRes }
  else
    { predecessor := pred, cloneCmd := ccmd, rsyncCmd := some cmd,
      sentinelWritten := true, result := 0 }

/-- Embedding of `sync` (lines 163-221).  `entries` is the list of existing
directory paths matching the glob `snapback_<name>_*_<tag>` under `dest`;
`sorted(glob.glob(...))` is `sortStrings entries`, and
`snapshots_list[-1]` (guarded by `if len(snapshots_list):`) is its
`getLast?`. -/
def sync (source dest name tag : String) (excludes : List String) (timestamp : String)
    (entries : List String) (cloneRes rsyncRes : Int) : SyncTrace :=
  let current_snapshot := joinPath dest (genName name timestamp tag)
  let snapshots_list := sortStrings entries
  match snapshots_list.getLast? with
  | some last_snapshot =>
    let cmd := ["cp", "-a", "-l", last_snapshot, current_snapshot]
    if cloneRes > 0 then
      { predecessor := some last_snapshot, cloneCmd := some cmd, rsyncCmd := none,
        sentinelWritten := false, result := cloneRes }
    else
      mirrorStep source current_snapshot excludes (some last_snapshot) (some cmd) rsyncRes
  | none => mirrorStep source current_snapshot excludes none none rsyncRes

/-- Outcome of `rotate`: the snapshots actually removed, the matching
directory entries still on disk afterwards, and whether a `shutil.rmtree`
call raised an exception (which `rotate` does not catch). -/
structure RotateResult where
  deleted : List String
  remaining : List String
  raised : Bool
deriving DecidableEq

/-- The `for snapshot in delete_list: shutil.rmtree(snapshot)` loop of
`rotate` (lines 158-160).  `deleteOk s = false` models `rmtree` raising,
e.g. a permission error during subtree removal; the exception propagates, so
the loop stops there.  Returns the removed entries, the delete-list entries
still on disk, and whether an exception was raised. -/
def runDeletes (deleteOk : String → Bool) : List String → List String × List String × Bool
  | [] => ([], [], false)
  | d :: ds =>
    if deleteOk d then
      let r := runDeletes deleteOk ds
      (d :: r.1, r.2.1, r.2.2)
    else ([], d :: ds, true)

/-- Embedding of `rotate` (lines 141-160).  `entries` is the glob result for
`snapback_<name>_*_<tag>` under `dest` at the time `rotate` runs;
`delete_list = snapshots_list[:-keep]` is the `take` below. -/
def rotate (deleteOk : String → Bool) (entries : List String) (keep : Int) : RotateResult :=
  if keep < 1 then { deleted := [], remaining := entries, raised := false }
  else
    let snapshots_list := sortStrings entries
    let delete_list := snapshots_list.take (snapshots_list.length - keep.toNat)
    let r := runDeletes deleteOk delete_list
    { deleted := r.1,
      remaining := r.2.1 ++ snapshots_list.drop (snapshots_list.length - keep.toNat),
      raised := r.2.2 }

/-- Observable outcome of one run of `main` (lines 31-81). -/
structure MainTrace where
  syncCalled : Bool
  syncResult : Option Int
  rotateCalled : Bool
  deleted : List String
  raised : Bool
  exitCode : Int
deriving DecidableEq

/-- The glob result `rotate` sees inside `main`: `rotate` globs again after
`sync` ran, so it also sees the new generation directory when that directory
exists on disk.  It certainly does when `sync` succeeded, and when the
`cp -a -l` clone step succeeded before rsync failed; after a failed external
command the partial on-disk state is not determined by the program and is
modelled by the input `partialGen`. -/
def entriesAtRotate (source dest name tag : String) (excludes : List String)
    (timestamp : String) (entries : List String) (cloneRes rsyncRes : Int)
    (partialGen : Bool) : List String :=
  let tr := sync source dest name tag excludes timestamp entries cloneRes rsyncRes
  let newGenExists :=
    if tr.result = 0 then true
    else if tr.cloneCmd.isSome && decide (cloneRes > 0) then partialGen
    else if tr.cloneCmd.isSome then true
    else partialGen
  entries ++ (if newGenExists then [joinPath dest (genName name timestamp tag)] else [])

/-- Embedding of `main` (lines 31-81).  `system` is `platform.system()`;
`lockOk` is whether the non-blocking lock on `/tmp/snapback_<name>.lock` was
acquired; `destExists` and `destIsDir` describe the `dest` argument before
the run; `entries` is the glob result for the (name, tag) pattern before the
run; `deleteOk` models `shutil.rmtree` as in `rotate`.  An exception
escaping `rotate` kills the Python process with a traceback (exit status 1)
before `sys.exit(res)` is reached. -/
def main (system : String) (lockOk : Bool) (destExists destIsDir : Bool)
    (source dest name tag : String) (excludes : List String) (timestamp : String)
    (entries : List String) (cloneRes rsyncRes : Int) (keep : Int)
    (deleteOk : String → Bool) (partialGen : Bool) : MainTrace :=
  if lowerStr system ≠ "linux" then
    { syncCalled := false, syncResult := none, rotateCalled := false,
      deleted := [], raised := false, exitCode := 1 }
  else if !lockOk then
    { syncCalled := false, syncResult := none, rotateCalled := false,
      deleted := [], raised := false, exitCode := 1 }
  else if destExists && !destIsDir then
    { syncCalled := false, syncResult := none, rotateCalled := false,
      deleted := [], raised := false, exitCode := 1 }
  else
    let tr := sync source dest name tag excludes timestamp entries cloneRes rsyncRes
    let rr := rotate deleteOk (entriesAtRotate source dest name tag excludes timestamp
      entries cloneRes rsyncRes partialGen) keep
    { syncCalled := true, syncResult := some tr.result, rotateCalled := true,
      deleted := rr.deleted, raised := rr.raised,
      exitCode := if rr.raised then 1 else tr.result }

theorem string_append_data (a b : String) : (a ++ b).data = a.data ++ b.data := rfl

theorem dropWhile_dropWhile (p : Char → Bool) (l : List Char) :
    List.dropWhile p (List.dropWhile p l) = List.dropWhile p l := by
  induction l with
  | nil => rfl
  | cons a as ih =>
    cases h : p a with
    | true => simp [List.dropWhile_cons, h, ih]
    | false => simp [List.dropWhile_cons, h]

theorem head?_dropWhile_false (p : Char → Bool) (l : List Char) :
    ∀ a, (List.dropWhile p l).head? = some a → p a = false := by
  induction l with
  | nil => intro a ha; simp at ha
  | cons b bs ih =>
    intro a ha
    cases h : p b with
    | true => rw [List.dropWhile_cons, if_pos h] at ha; exact ih a ha
    | false =>
      rw [List.dropWhile_cons, if_neg (by simp [h])] at ha
      simp only [List.head?_cons, Option.some.injEq] at ha
      subst ha
      exact h

theorem runDeletes_eq (deleteOk : String → Bool) (l : List String) :
    runDeletes deleteOk l =
      (l.takeWhile deleteOk, l.dropWhile deleteOk, l.any (fun s => !deleteOk s)) := by
  induction l with
  | nil => rfl
  | cons d ds ih =>
    cases h : deleteOk d with
    | true => simp [runDeletes, h, ih]
    | false => simp [runDeletes, h]

theorem rotate_not_raised {deleteOk : String → Bool} (entries : List String) (keep : Int)
    (hok : ∀ s, deleteOk s = true) :
    (rotate deleteOk entries keep).raised = false := by
  have hfun : deleteOk = fun _ => true := funext fun s => hok s
  subst hfun
  unfold rotate
  split
  · rfl
  · simp [runDeletes_eq]

theorem rotate_allOk {deleteOk : String → Bool} (entries : List String) (keep : Int)
    (hok : ∀ s, deleteOk s = true) (hk : 1 ≤ keep) :
    rotate deleteOk entries keep =
      { deleted := (sortStrings entries).take ((sortStrings entries).length - keep.toNat),
        remaining := (sortStrings entries).drop ((sortStrings entries).length - keep.toNat),
        raised := false } := by
  have hfun : deleteOk = fun _ => true := funext fun s => hok s
  subst hfun
  unfold rotate
  rw [if_neg (by omega)]
  simp [runDeletes_eq]

theorem rotate_deleted_takeWhile (deleteOk : String → Bool) (entries : List String)
    (keep : Int) (hk : 1 ≤ keep) :
    (rotate deleteOk entries keep).deleted =
      ((sortStrings entries).take ((sortStrings entries).length - keep.toNat)).takeWhile
        deleteOk ∧
    (rotate deleteOk entries keep).raised =
      ((sortStrings entries).take ((sortStrings entries).length - keep.toNat)).any
        (fun s => !deleteOk s) := by
  unfold rotate
  rw [if_neg (by omega)]
  simp [runDeletes_eq]

theorem mirrorStep_fields (source cur : String) (excludes : List String)
    (pred : Option String) (ccmd : Option (List String)) (rsyncRes : Int) :
    (mirrorStep source cur excludes pred ccmd rsyncRes).predecessor = pred ∧
    (mirrorStep source cur excludes pred ccmd rsyncRes).cloneCmd = ccmd ∧
    (mirrorStep source cur excludes pred ccmd rsyncRes).rsyncCmd.isSome = true := by
  unfold mirrorStep
  split <;> exact ⟨rfl, rfl, rfl⟩

theorem mirrorStep_result_pos (source cur : String) (excludes : List String)
    (pred : Option String) (ccmd : Option (List String)) {rsyncRes : Int}
    (h : 0 < rsyncRes) :
    (mirrorStep source cur excludes pred ccmd rsyncRes).result = rsyncRes ∧
    (mirrorStep source cur excludes pred ccmd rsyncRes).sentinelWritten = false := by
  unfold mirrorStep
  rw [if_pos h]
  exact ⟨rfl, rfl⟩

theorem mirrorStep_result_nonpos (source cur : String) (excludes : List String)
    (pred : Option String) (ccmd : Option (List String)) {rsyncRes : Int}
    (h : rsyncRes ≤ 0) :
    (mirrorStep source cur excludes pred ccmd rsyncRes).result = 0 ∧
    (mirrorStep source cur excludes pred ccmd rsyncRes).sentinelWritten = true := by
  unfold mirrorStep
  rw [if_neg (by omega)]
  exact ⟨rfl, rfl⟩

theorem sortStrings_getLast?_of_ne_nil {entries : List String} (hne : entries ≠ []) :
    ∃ p, (sortStrings entries).getLast? = some p := by
  cases hq : (sortStrings entries).getLast? with
  | none =>
    exact absurd ((sortStrings_eq_nil_iff entries).mp (List.getLast?_eq_none_iff.mp hq)) hne
  | some p => exact ⟨p, rfl⟩

theorem sync_clone_fail (source dest name tag : String) (excludes : List String)
    (ts : String) {entries : List String} {cloneRes : Int} (rsyncRes : Int)
    (hne : entries ≠ []) (hc : 0 < cloneRes) :
    (sync source dest name tag excludes ts entries cloneRes rsyncRes).result = cloneRes ∧
    (sync source dest name tag excludes ts entries cloneRes rsyncRes).rsyncCmd = none ∧
    (sync source dest name tag excludes ts entries cloneRes rsyncRes).sentinelWritten
      = false := by
  obtain ⟨p, hp⟩ := sortStrings_getLast?_of_ne_nil hne
  simp only [sync]
  rw [hp]
  simp only []
  rw [if_pos hc]
  exact ⟨rfl, rfl, rfl⟩

theorem sync_mirror (source dest name tag : String) (excludes : List String)
    (ts : String) (entries : List String) (cloneRes rsyncRes : Int)
    (h : entries = [] ∨ cloneRes ≤ 0) :
    sync source dest name tag excludes ts entries cloneRes rsyncRes =
      mirrorStep source (joinPath dest (genName name ts tag)) excludes
        ((sortStrings entries).getLast?)
        (((sortStrings entries).getLast?).map
          (fun p => ["cp", "-a", "-l", p, joinPath dest (genName name ts tag)]))
        rsyncRes := by
  simp only [sync]
  split
  next last heq =>
    have hc : cloneRes ≤ 0 := by
      rcases h with h | h
      · rw [h] at heq
        simp [sortStrings] at heq
      · exact h
    rw [heq]
    rw [if_neg (by omega)]
    rfl
  next heq =>
    rw [heq]
    rfl

theorem main_eq_of_checks (system : String) (lockOk destExists destIsDir : Bool)
    (source dest name tag : String) (excludes : List String) (timestamp : String)
    (entries : List String) (cloneRes rsyncRes : Int) (keep : Int)
    (deleteOk : String → Bool) (partialGen : Bool)
    (hsys : lowerStr system = "linux") (hlock : lockOk = true)
    (hdest : destExists = true → destIsDir = true) :
    main system lockOk destExists destIsDir source dest name tag excludes timestamp
        entries cloneRes rsyncRes keep deleteOk partialGen =
      { syncCalled := true,
        syncResult := some (sync source dest name tag excludes timestamp entries
          cloneRes rsyncRes).result,
        rotateCalled := true,
        deleted := (rotate deleteOk (entriesAtRotate source dest name tag excludes
          timestamp entries cloneRes rsyncRes partialGen) keep).deleted,
        raised := (rotate deleteOk (entriesAtRotate source dest name tag excludes
          timestamp entries cloneRes rsyncRes partialGen) keep).raised,
        exitCode := if (rotate deleteOk (entriesAtRotate source dest name tag excludes
            timestamp entries cloneRes rsyncRes partialGen) keep).raised then 1
          else (sync source dest name tag excludes timestamp entries
            cloneRes rsyncRes).result } := by
  have h3 : ¬ ((destExists && !destIsDir) = true) := by
    rcases Bool.eq_false_or_eq_true destExists with h | h
    · simp [h, hdest h]
    · simp [h]
  unfold main
  rw [if_neg (by simp [hsys]), if_neg (by simp [hlock]), if_neg h3]

/-- The slash category of the source normalization. -/
theorem rstripSlash_normalize (s : String) :
    rstripSlash (normalizeSource s) = rstripSlash s := by
  unfold normalizeSource rstripSlash
  apply congrArg String.mk
  apply congrArg List.reverse
  rw [string_append_data]
  rw [show ("/" : String).data = ['/'] from rfl]
  rw [List.reverse_append, List.reverse_reverse]
  rw [show (['/'] : List Char).reverse = ['/'] from rfl]
  rw [show ('/' :: []) ++ List.dropWhile (fun c => c == '/') s.data.reverse =
    '/' :: List.dropWhile (fun c => c == '/') s.data.reverse from rfl]
  rw [List.dropWhile_cons, if_pos (by decide)]
  exact dropWhile_dropWhile _ _

theorem endsInOneSlash_normalize (s : String) :
    endsInOneSlash (normalizeSource s) = true := by
  unfold endsInOneSlash normalizeSource rstripSlash
  rw [string_append_data]
  rw [show ("/" : String).data = ['/'] from rfl]
  rw [List.reverse_append, List.reverse_reverse]
  rw [show (['/'] : List Char).reverse = ['/'] from rfl]
  rw [show ('/' :: []) ++ List.dropWhile (fun c => c == '/') s.data.reverse =
    '/' :: List.dropWhile (fun c => c == '/') s.data.reverse from rfl]
  cases hh : (List.dropWhile (fun c => c == '/') s.data.reverse).head? with
  | none => simp [hh]
  | some a =>
    have ha := head?_dropWhile_false (fun c => c == '/') s.data.reverse a hh
    simp [hh, ha]

/-- C2: the claim says the timestamp encoding of generation names is strictly
increasing with creation time, so that naive string sort of generation names
equals chronological sort.  The code formats the hour with the 12-hour `%I`
field and no AM/PM marker, which breaks this: 2025-06-05 11:00:00 is earlier
than 2025-06-05 13:00:00, yet its encoding "20250605110000" compares
strictly greater than the later instant's "20250605010000", and the full
generation directory names compare in reversed order as well. -/
theorem c2_timestamp_order_violated :
    chronLt ⟨2025, 6, 5, 11, 0, 0⟩ ⟨2025, 6, 5, 13, 0, 0⟩ = true ∧
    timestampFmt ⟨2025, 6, 5, 11, 0, 0⟩ = "20250605110000" ∧
    timestampFmt ⟨2025, 6, 5, 13, 0, 0⟩ = "20250605010000" ∧
    strLt (timestampFmt ⟨2025, 6, 5, 11, 0, 0⟩) (timestampFmt ⟨2025, 6, 5, 13, 0, 0⟩)
      = false ∧
    strLt (timestampFmt ⟨2025, 6, 5, 13, 0, 0⟩) (timestampFmt ⟨2025, 6, 5, 11, 0, 0⟩)
      = true ∧
    strLt (genName "mybackup" (timestampFmt ⟨2025, 6, 5, 13, 0, 0⟩) "daily")
      (genName "mybackup" (timestampFmt ⟨2025, 6, 5, 11, 0, 0⟩) "daily") = true := by
  decide

/-- C3: with `keep = k > 0` and every `rmtree` succeeding, `rotate` deletes
exactly the entries other than the last `k` of the ascending-sorted list:
afterwards exactly `min k n` generations remain, they are the trailing
segment of the sorted list (the `k` most recent), every deleted entry sorts
at or below every surviving one, and when `k >= n` nothing is deleted and
the sorted listing survives as a whole (a permutation of the input, i.e. a
no-op on the destination). -/
theorem c3_retention_bound (entries : List String) (keep : Int) (hk : 0 < keep) :
    (rotate (fun _ => true) entries keep).raised = false ∧
    (rotate (fun _ => true) entries keep).deleted =
      (sortStrings entries).take (entries.length - keep.toNat) ∧
    (rotate (fun _ => true) entries keep).remaining =
      (sortStrings entries).drop (entries.length - keep.toNat) ∧
    (rotate (fun _ => true) entries keep).remaining.length
      = min keep.toNat entries.length ∧
    (∀ d ∈ (rotate (fun _ => true) entries keep).deleted,
      ∀ r ∈ (rotate (fun _ => true) entries keep).remaining, strLe d r = true) ∧
    (entries.length ≤ keep.toNat →
      (rotate (fun _ => true) entries keep).deleted = [] ∧
      List.Perm (rotate (fun _ => true) entries keep).remaining entries) := by
  have hrw := @rotate_allOk (fun _ => true) entries keep (fun _ => rfl) (by omega)
  rw [hrw, length_sortStrings]
  refine ⟨rfl, rfl, rfl, ?_, ?_, ?_⟩
  · rw [List.length_drop, length_sortStrings]
    omega
  · intro d hd r hr
    have hp := sortStrings_pairwise entries
    rw [← List.take_append_drop (entries.length - keep.toNat) (sortStrings entries)]
      at hp
    exact (List.pairwise_append.mp hp).2.2 d hd r hr
  · intro hle
    rw [Nat.sub_eq_zero_of_le hle]
    exact ⟨rfl, by rw [List.drop_zero]; exact sortStrings_perm entries⟩

/-- Witness for C3 at a concrete destination state. -/
theorem c3_witness :
    (rotate (fun _ => true) ["b", "a", "c"] 2).deleted = ["a"] ∧
    (rotate (fun _ => true) ["b", "a", "c"] 2).remaining.length = 2 := by
  have h := c3_retention_bound ["b", "a", "c"] 2 (by decide)
  exact ⟨h.2.1.trans (by decide), by rw [h.2.2.2.1]; decide⟩

/-- C6 as stated is false on the code: `sync` only treats a POSITIVE
mirroring return code as failure (`if result > 0`), but `Popen.wait` returns
a negative code when the subprocess is killed by a signal.  With no
predecessor and a mirroring return code of -9 (rsync killed by SIGKILL),
`sync` returns 0 and even writes the completion sentinel, although the
mirroring step returned non-zero. -/
theorem c6_cex_negative_rsync_code_success :
    (sync "/data" "/snapshots" "mybackup" "daily" [] "20250101010101" [] 0
      (-9)).result = 0 ∧
    (sync "/data" "/snapshots" "mybackup" "daily" [] "20250101010101" [] 0
      (-9)).sentinelWritten = true ∧
    ((-9 : Int) ≠ 0) := by
  decide

/-- C6 (amended): when the clone step does not abort the run (no predecessor,
or a non-positive clone code), a POSITIVE mirroring return code `r` makes
`sync` fail and return exactly `r` without writing the sentinel; a
non-positive mirroring code (0, or a negative signal code) is treated as
success and `sync` returns 0 — in particular when both external steps return
0, `sync` returns 0. -/
theorem c6_sync_failure_propagation (source dest name tag : String)
    (excludes : List String) (ts : String) (entries : List String)
    (cloneRes rsyncRes : Int) (hclone : entries = [] ∨ cloneRes ≤ 0) :
    (0 < rsyncRes →
      (sync source dest name tag excludes ts entries cloneRes rsyncRes).result
        = rsyncRes ∧
      (sync source dest name tag excludes ts entries cloneRes rsyncRes).sentinelWritten
        = false) ∧
    (rsyncRes ≤ 0 →
      (sync source dest name tag excludes ts entries cloneRes rsyncRes).result = 0 ∧
      (sync source dest name tag excludes ts entries cloneRes rsyncRes).sentinelWritten
        = true) := by
  rw [sync_mirror source dest name tag excludes ts entries cloneRes rsyncRes hclone]
  exact ⟨fun h => mirrorStep_result_pos _ _ _ _ _ h,
    fun h => mirrorStep_result_nonpos _ _ _ _ _ h⟩

/-- Witness for C6 at a concrete failing mirroring code. -/
theorem c6_witness :
    (sync "/data" "/snapshots" "mybackup" "daily" [] "20250101010101" [] 0 23).result
      = 23 := by
  exact ((c6_sync_failure_propagation "/data" "/snapshots" "mybackup" "daily" []
    "20250101010101" [] 0 23 (Or.inl rfl)).1 (by decide)).1

/-- C7: when at least one entry matches the (name, *, tag) pattern, `sync`
selects the lexicographically last entry of the sorted enumeration — a
maximum of all matching entries — as the predecessor and launches
`cp -a -l <predecessor> <new generation path>`; when no entry matches, no
clone step is performed and only the mirroring command from the source runs. -/
theorem c7_predecessor_selection (source dest name tag : String)
    (excludes : List String) (ts : String) (entries : List String)
    (cloneRes rsyncRes : Int) :
    (entries = [] →
      (sync source dest name tag excludes ts entries cloneRes rsyncRes).predecessor
        = none ∧
      (sync source dest name tag excludes ts entries cloneRes rsyncRes).cloneCmd
        = none ∧
      (sync source dest name tag excludes ts entries cloneRes rsyncRes).rsyncCmd.isSome
        = true) ∧
    (∀ p, (sortStrings entries).getLast? = some p →
      (sync source dest name tag excludes ts entries cloneRes rsyncRes).predecessor
        = some p ∧
      p ∈ entries ∧ (∀ x ∈ entries, strLe x p = true) ∧
      (sync source dest name tag excludes ts entries cloneRes rsyncRes).cloneCmd
        = some ["cp", "-a", "-l", p, joinPath dest (genName name ts tag)]) := by
  constructor
  · intro h
    subst h
    rw [sync_mirror source dest name tag excludes ts [] cloneRes rsyncRes (Or.inl rfl)]
    have hf := mirrorStep_fields source (joinPath dest (genName name ts tag)) excludes
      ((sortStrings []).getLast?)
      (((sortStrings []).getLast?).map
        (fun p => ["cp", "-a", "-l", p, joinPath dest (genName name ts tag)])) rsyncRes
    exact ⟨hf.1, hf.2.1, hf.2.2⟩
  · intro p hp
    have hmax := sortStrings_getLast?_max hp
    refine ⟨?_, hmax.1, hmax.2, ?_⟩
    · by_cases hc : 0 < cloneRes
      · simp only [sync]
        rw [hp]
        simp only []
        rw [if_pos hc]
      · rw [sync_mirror source dest name tag excludes ts entries cloneRes rsyncRes
          (Or.inr (by omega))]
        rw [(mirrorStep_fields _ _ _ _ _ _).1, hp]
    · by_cases hc : 0 < cloneRes
      · simp only [sync]
        rw [hp]
        simp only []
        rw [if_pos hc]
      · rw [sync_mirror source dest name tag excludes ts entries cloneRes rsyncRes
          (Or.inr (by omega))]
        rw [(mirrorStep_fields _ _ _ _ _ _).2.1, hp]
        rfl

/-- Witness for C7 at a concrete destination state with two generations. -/
theorem c7_witness :
    (sync "/data" "/snapshots" "mybackup" "daily" [] "20250606120000"
      ["/snapshots/snapback_mybackup_20250505120000_daily",
       "/snapshots/snapback_mybackup_20250101120000_daily"] 0 0).predecessor =
      some "/snapshots/snapback_mybackup_20250505120000_daily" := by
  exact ((c7_predecessor_selection "/data" "/snapshots" "mybackup" "daily" []
    "20250606120000"
    ["/snapshots/snapback_mybackup_20250505120000_daily",
     "/snapshots/snapback_mybackup_20250101120000_daily"] 0 0).2
    "/snapshots/snapback_mybackup_20250505120000_daily" (by decide)).1

/-- C8 is false as stated: the claim covers every NON-ZERO clone return
code, but line 188 tests `if result > 0`, so a negative code from the clone
subprocess (`cp -a -l` killed by a signal, `Popen.wait` returning -6) falls
through.  With a predecessor present and a clone code of -6, `sync` does not
abort: it launches the mirroring step, writes the completion sentinel and
returns 0. -/
theorem c8_cex_negative_clone_code_proceeds :
    (sync "/data" "/snapshots" "mybackup" "daily" [] "20250606120000"
      ["/snapshots/snapback_mybackup_20250505120000_daily"] (-6) 0).result = 0 ∧
    (sync "/data" "/snapshots" "mybackup" "daily" [] "20250606120000"
      ["/snapshots/snapback_mybackup_20250505120000_daily"] (-6) 0).rsyncCmd.isSome
      = true ∧
    (sync "/data" "/snapshots" "mybackup" "daily" [] "20250606120000"
      ["/snapshots/snapback_mybackup_20250505120000_daily"] (-6) 0).sentinelWritten
      = true ∧
    ((-6 : Int) ≠ 0) := by
  decide

/-- C8 (amended): when a predecessor exists and the clone (`cp -a -l`) step
returns a POSITIVE status, `sync` aborts before the mirroring step: the
rsync command is never built or launched, no sentinel is written, and `sync`
returns the clone step's status.  A non-positive clone code — including the
negative codes `Popen.wait` returns when `cp` is killed by a signal — is
treated as success and `sync` proceeds to launch the mirroring step. -/
theorem c8_clone_failure_aborts (source dest name tag : String)
    (excludes : List String) (ts : String) (entries : List String)
    (cloneRes rsyncRes : Int) (hne : entries ≠ []) :
    (0 < cloneRes →
      (sync source dest name tag excludes ts entries cloneRes rsyncRes).result
        = cloneRes ∧
      (sync source dest name tag excludes ts entries cloneRes rsyncRes).rsyncCmd
        = none ∧
      (sync source dest name tag excludes ts entries cloneRes rsyncRes).sentinelWritten
        = false) ∧
    (cloneRes ≤ 0 →
      (sync source dest name tag excludes ts entries cloneRes
        rsyncRes).rsyncCmd.isSome = true) := by
  constructor
  · intro hc
    exact sync_clone_fail source dest name tag excludes ts rsyncRes hne hc
  · intro hc
    rw [sync_mirror source dest name tag excludes ts entries cloneRes rsyncRes
      (Or.inr hc)]
    exact (mirrorStep_fields _ _ _ _ _ _).2.2

/-- Witness for the amended C8 at a concrete failing clone. -/
theorem c8_witness :
    (sync "/data" "/snapshots" "mybackup" "daily" [] "20250606120000"
      ["/snapshots/snapback_mybackup_20250505120000_daily"] 4 0).rsyncCmd = none := by
  exact ((c8_clone_failure_aborts "/data" "/snapshots" "mybackup" "daily" []
    "20250606120000" ["/snapshots/snapback_mybackup_20250505120000_daily"] 4 0
    (by decide)).1 (by decide)).2.1

/-- C9: with `keep <= 0` (the code tests `keep < 1`), `rotate` returns
immediately: nothing is deleted, every existing generation is left untouched
and no exception can arise, whatever `rmtree` would have done. -/
theorem c9_retention_noop (deleteOk : String → Bool) (entries : List String)
    (keep : Int) (hk : keep ≤ 0) :
    rotate deleteOk entries keep =
      { deleted := [], remaining := entries, raised := false } := by
  unfold rotate
  rw [if_pos (by omega)]

/-- Witness for C9 at a concrete destination state. -/
theorem c9_witness :
    rotate (fun _ => false) ["x", "y"] 0 =
      { deleted := [], remaining := ["x", "y"], raised := false } :=
  c9_retention_noop (fun _ => false) ["x", "y"] 0 (by decide)

/-- C10: the source-path normalization `source.rstrip("/") + "/"` always
yields a string ending in exactly one slash, is idempotent, and maps both
`"/"` and the empty string to `"/"`. -/
theorem c10_source_normalization :
    (∀ s, endsInOneSlash (normalizeSource s) = true) ∧
    (∀ s, normalizeSource (normalizeSource s) = normalizeSource s) ∧
    normalizeSource "" = "/" ∧
    normalizeSource "/" = "/" := by
  refine ⟨fun s => endsInOneSlash_normalize s, fun s => ?_, by decide, by decide⟩
  show rstripSlash (normalizeSource s) ++ "/" = normalizeSource s
  rw [rstripSlash_normalize]
  rfl

theorem main_exit_eq_sync_result (system : String) (lockOk destExists destIsDir : Bool)
    (source dest name tag : String) (excludes : List String) (timestamp : String)
    (entries : List String) (cloneRes rsyncRes : Int) (keep : Int)
    (deleteOk : String → Bool) (partialGen : Bool)
    (hsys : lowerStr system = "linux") (hlock : lockOk = true)
    (hdest : destExists = true → destIsDir = true) (hok : ∀ s, deleteOk s = true) :
    (main system lockOk destExists destIsDir source dest name tag excludes timestamp
        entries cloneRes rsyncRes keep deleteOk partialGen).exitCode =
      (sync source dest name tag excludes timestamp entries cloneRes rsyncRes).result := by
  rw [main_eq_of_checks system lockOk destExists destIsDir source dest name tag excludes
    timestamp entries cloneRes rsyncRes keep deleteOk partialGen hsys hlock hdest]
  show (if (rotate deleteOk (entriesAtRotate source dest name tag excludes timestamp
      entries cloneRes rsyncRes partialGen) keep).raised then (1 : Int)
    else (sync source dest name tag excludes timestamp entries cloneRes rsyncRes).result)
      = _
  rw [rotate_not_raised _ _ hok]
  simp

/-- C1 is false on the code: `main` calls `rotate` unconditionally right
after `sync` (lines 70-72), without inspecting `res`.  Concrete run: two old
generations exist, the clone step succeeds, the mirroring step fails with
code 23; `sync` returns 23, yet `rotate` is invoked and (keep = 1) deletes
both old generations — keeping only the partially-synced new one. -/
theorem c1_cex_rotate_runs_after_failed_sync :
    (main "Linux" true true true "/data" "/snapshots" "mybackup" "daily" []
      "20250102030405"
      ["/snapshots/snapback_mybackup_20250101010000_daily",
       "/snapshots/snapback_mybackup_20250101020000_daily"]
      0 23 1 (fun _ => true) false).syncResult = some 23 ∧
    (main "Linux" true true true "/data" "/snapshots" "mybackup" "daily" []
      "20250102030405"
      ["/snapshots/snapback_mybackup_20250101010000_daily",
       "/snapshots/snapback_mybackup_20250101020000_daily"]
      0 23 1 (fun _ => true) false).rotateCalled = true ∧
    (main "Linux" true true true "/data" "/snapshots" "mybackup" "daily" []
      "20250102030405"
      ["/snapshots/snapback_mybackup_20250101010000_daily",
       "/snapshots/snapback_mybackup_20250101020000_daily"]
      0 23 1 (fun _ => true) false).deleted =
      ["/snapshots/snapback_mybackup_20250101010000_daily",
       "/snapshots/snapback_mybackup_20250101020000_daily"] ∧
    ((23 : Int) ≠ 0) := by
  decide

/-- C1 (amended): whenever the preliminary checks pass (Linux platform, lock
acquired, destination not an existing non-directory), `main` invokes `sync`
and then always invokes `rotate`, whether or not `sync` failed; only the
exit status reflects the sync failure. -/
theorem c1_rotate_invoked_unconditionally (system : String)
    (lockOk destExists destIsDir : Bool) (source dest name tag : String)
    (excludes : List String) (timestamp : String) (entries : List String)
    (cloneRes rsyncRes : Int) (keep : Int) (deleteOk : String → Bool)
    (partialGen : Bool) (hsys : lowerStr system = "linux") (hlock : lockOk = true)
    (hdest : destExists = true → destIsDir = true) :
    (main system lockOk destExists destIsDir source dest name tag excludes timestamp
      entries cloneRes rsyncRes keep deleteOk partialGen).syncCalled = true ∧
    (main system lockOk destExists destIsDir source dest name tag excludes timestamp
      entries cloneRes rsyncRes keep deleteOk partialGen).rotateCalled = true := by
  rw [main_eq_of_checks system lockOk destExists destIsDir source dest name tag excludes
    timestamp entries cloneRes rsyncRes keep deleteOk partialGen hsys hlock hdest]
  exact ⟨rfl, rfl⟩

/-- Witness for the amended C1: a run with a failed mirroring step (code 30)
still reaches `rotate`. -/
theorem c1_witness :
    (main "Linux" true true true "/srv/files" "/backups" "web" "hourly" []
      "20250102030405" [] 0 30 2 (fun _ => true) false).rotateCalled = true :=
  (c1_rotate_invoked_unconditionally "Linux" true true true "/srv/files" "/backups"
    "web" "hourly" [] "20250102030405" [] 0 30 2 (fun _ => true) false (by decide)
    rfl (fun _ => rfl)).2

/-- C4 is false on the code: `rotate` does not catch `shutil.rmtree` errors
(lines 158-160), so a failed deletion raises an exception that aborts the
remaining deletions and crashes the run.  Concrete run: the builder
succeeds, keep = 1, two old generations are due for deletion and removing
the oldest fails (permission error): nothing is deleted (rotation does not
continue with the second entry), and the process exits 1 despite the
successful sync. -/
theorem c4_cex_delete_failure_fatal :
    (main "Linux" true true true "/data" "/snapshots" "mybackup" "daily" []
      "20250102030405"
      ["/snapshots/snapback_mybackup_20250101010000_daily",
       "/snapshots/snapback_mybackup_20250101020000_daily"]
      0 0 1 (fun s => !(s == "/snapshots/snapback_mybackup_20250101010000_daily"))
      false).syncResult = some 0 ∧
    (main "Linux" true true true "/data" "/snapshots" "mybackup" "daily" []
      "20250102030405"
      ["/snapshots/snapback_mybackup_20250101010000_daily",
       "/snapshots/snapback_mybackup_20250101020000_daily"]
      0 0 1 (fun s => !(s == "/snapshots/snapback_mybackup_20250101010000_daily"))
      false).raised = true ∧
    (main "Linux" true true true "/data" "/snapshots" "mybackup" "daily" []
      "20250102030405"
      ["/snapshots/snapback_mybackup_20250101010000_daily",
       "/snapshots/snapback_mybackup_20250101020000_daily"]
      0 0 1 (fun s => !(s == "/snapshots/snapback_mybackup_20250101010000_daily"))
      false).deleted = [] ∧
    (main "Linux" true true true "/data" "/snapshots" "mybackup" "daily" []
      "20250102030405"
      ["/snapshots/snapback_mybackup_20250101010000_daily",
       "/snapshots/snapback_mybackup_20250101020000_daily"]
      0 0 1 (fun s => !(s == "/snapshots/snapback_mybackup_20250101010000_daily"))
      false).exitCode = 1 := by
  decide

/-- C4 (amended): a `rmtree` failure during rotation is fatal, not
non-fatal.  Under passing preliminary checks and `keep >= 1`, the deleted
entries are exactly the longest prefix of the delete list on which deletion
succeeds (`takeWhile`): rotation stops at the first failing entry and the
remaining delete-list entries are not removed; an exception is raised iff
some delete-list entry fails; and a raised exception makes the whole run
exit 1 — even when the Builder succeeded. -/
theorem c4_delete_failure_aborts (system : String) (lockOk destExists destIsDir : Bool)
    (source dest name tag : String) (excludes : List String) (timestamp : String)
    (entries : List String) (cloneRes rsyncRes : Int) (keep : Int)
    (deleteOk : String → Bool) (partialGen : Bool)
    (hsys : lowerStr system = "linux") (hlock : lockOk = true)
    (hdest : destExists = true → destIsDir = true) (hk : 1 ≤ keep) :
    ((main system lockOk destExists destIsDir source dest name tag excludes timestamp
        entries cloneRes rsyncRes keep deleteOk partialGen).deleted =
      ((sortStrings (entriesAtRotate source dest name tag excludes timestamp entries
          cloneRes rsyncRes partialGen)).take
        ((sortStrings (entriesAtRotate source dest name tag excludes timestamp entries
          cloneRes rsyncRes partialGen)).length - keep.toNat)).takeWhile deleteOk) ∧
    ((main system lockOk destExists destIsDir source dest name tag excludes timestamp
        entries cloneRes rsyncRes keep deleteOk partialGen).raised =
      ((sortStrings (entriesAtRotate source dest name tag excludes timestamp entries
          cloneRes rsyncRes partialGen)).take
        ((sortStrings (entriesAtRotate source dest name tag excludes timestamp entries
          cloneRes rsyncRes partialGen)).length - keep.toNat)).any
        (fun s => !deleteOk s)) ∧
    ((main system lockOk destExists destIsDir source dest name tag excludes timestamp
        entries cloneRes rsyncRes keep deleteOk partialGen).raised = true →
      (main system lockOk destExists destIsDir source dest name tag excludes timestamp
        entries cloneRes rsyncRes keep deleteOk partialGen).exitCode = 1) := by
  rw [main_eq_of_checks system lockOk destExists destIsDir source dest name tag excludes
    timestamp entries cloneRes rsyncRes keep deleteOk partialGen hsys hlock hdest]
  have hrt := rotate_deleted_takeWhile deleteOk (entriesAtRotate source dest name tag
    excludes timestamp entries cloneRes rsyncRes partialGen) keep hk
  refine ⟨hrt.1, hrt.2, ?_⟩
  intro hr
  have hr' : (rotate deleteOk (entriesAtRotate source dest name tag excludes timestamp
      entries cloneRes rsyncRes partialGen) keep).raised = true := hr
  show (if (rotate deleteOk (entriesAtRotate source dest name tag excludes timestamp
      entries cloneRes rsyncRes partialGen) keep).raised then (1 : Int)
    else (sync source dest name tag excludes timestamp entries cloneRes rsyncRes).result)
      = 1
  rw [hr']
  simp

/-- Witness for the amended C4: a failing deletion makes the run exit 1. -/
theorem c4_witness :
    (main "Linux" true true true "/srv/files" "/backups" "web" "hourly" []
      "20250102030405"
      ["/backups/snapback_web_20250101010000_hourly",
       "/backups/snapback_web_20250101020000_hourly"]
      0 0 1 (fun _ => false) false).exitCode = 1 :=
  (c4_delete_failure_aborts "Linux" true true true "/srv/files" "/backups" "web"
    "hourly" [] "20250102030405"
    ["/backups/snapback_web_20250101010000_hourly",
     "/backups/snapback_web_20250101020000_hourly"]
    0 0 1 (fun _ => false) false (by decide) rfl (fun _ => rfl) (by decide)).2.2
    (by decide)

/-- C5 is false as stated: the exit status after a mirroring failure is not
"exactly 1" but the mirroring step's own code (here rsync code 23 gives exit
status 23), and a NEGATIVE mirroring return code (rsync killed by SIGKILL,
`Popen.wait` returns -9) is not reported at all: the run exits 0. -/
theorem c5_cex_exit_status :
    (main "Linux" true true true "/data" "/snapshots" "mybackup" "daily" []
      "20250102030405" [] 0 23 0 (fun _ => true) false).exitCode = 23 ∧
    ((23 : Int) ≠ 1) ∧
    (main "Linux" true true true "/data" "/snapshots" "mybackup" "daily" []
      "20250102030405" [] 0 (-9) 0 (fun _ => true) false).exitCode = 0 ∧
    ((-9 : Int) ≠ 0) := by
  decide

/-- C5 (amended): the exit status is 1 on a non-Linux host, on lock
contention and on a destination existing as a non-directory; when the
preliminary checks pass (and every retention deletion succeeds), the exit
status equals the sync result: the clone step's code when a predecessor
exists and cloning fails with a positive code, the mirroring step's own
positive code when mirroring fails (not necessarily 1), and 0 when both
external steps return non-positive codes (0 on success; a negative,
signal-death code is treated as success). -/
theorem c5_exit_status (system : String) (lockOk destExists destIsDir : Bool)
    (source dest name tag : String) (excludes : List String) (timestamp : String)
    (entries : List String) (cloneRes rsyncRes : Int) (keep : Int)
    (deleteOk : String → Bool) (partialGen : Bool) (hok : ∀ s, deleteOk s = true) :
    (lowerStr system ≠ "linux" →
      (main system lockOk destExists destIsDir source dest name tag excludes timestamp
        entries cloneRes rsyncRes keep deleteOk partialGen).exitCode = 1) ∧
    (lockOk = false →
      (main system lockOk destExists destIsDir source dest name tag excludes timestamp
        entries cloneRes rsyncRes keep deleteOk partialGen).exitCode = 1) ∧
    (destExists = true → destIsDir = false →
      (main system lockOk destExists destIsDir source dest name tag excludes timestamp
        entries cloneRes rsyncRes keep deleteOk partialGen).exitCode = 1) ∧
    (lowerStr system = "linux" → lockOk = true →
      (destExists = true → destIsDir = true) →
      ((entries ≠ [] → 0 < cloneRes →
        (main system lockOk destExists destIsDir source dest name tag excludes
          timestamp entries cloneRes rsyncRes keep deleteOk partialGen).exitCode
          = cloneRes) ∧
       ((entries = [] ∨ cloneRes ≤ 0) → 0 < rsyncRes →
        (main system lockOk destExists destIsDir source dest name tag excludes
          timestamp entries cloneRes rsyncRes keep deleteOk partialGen).exitCode
          = rsyncRes) ∧
       ((entries = [] ∨ cloneRes ≤ 0) → rsyncRes ≤ 0 →
        (main system lockOk destExists destIsDir source dest name tag excludes
          timestamp entries cloneRes rsyncRes keep deleteOk partialGen).exitCode
          = 0))) := by
  refine ⟨?_, ?_, ?_, ?_⟩
  · intro h
    unfold main
    rw [if_pos h]
  · intro h
    by_cases h1 : lowerStr system ≠ "linux"
    · unfold main
      rw [if_pos h1]
    · unfold main
      rw [if_neg h1, if_pos (by simp [h])]
  · intro hde hdd
    by_cases h1 : lowerStr system ≠ "linux"
    · unfold main
      rw [if_pos h1]
    · by_cases h2 : lockOk = true
      · unfold main
        rw [if_neg h1, if_neg (by simp [h2]), if_pos (by simp [hde, hdd])]
      · have h2' : lockOk = false := by
          revert h2
          cases lockOk <;> simp
        unfold main
        rw [if_neg h1, if_pos (by simp [h2'])]
  · intro hsys hlock hdest
    have hex := main_exit_eq_sync_result system lockOk destExists destIsDir source dest
      name tag excludes timestamp entries cloneRes rsyncRes keep deleteOk partialGen
      hsys hlock hdest hok
    rw [hex]
    refine ⟨?_, ?_, ?_⟩
    · intro hne hc
      exact (sync_clone_fail source dest name tag excludes timestamp rsyncRes hne hc).1
    · intro hor hr
      rw [sync_mirror source dest name tag excludes timestamp entries cloneRes rsyncRes
        hor]
      exact (mirrorStep_result_pos _ _ _ _ _ hr).1
    · intro hor hr
      rw [sync_mirror source dest name tag excludes timestamp entries cloneRes rsyncRes
        hor]
      exact (mirrorStep_result_nonpos _ _ _ _ _ hr).1

/-- Witness for the amended C5: a successful run exits 0. -/
theorem c5_witness :
    (main "linux" true true true "/srv/files" "/backups" "db" "daily" []
      "20250102030405" [] 0 0 3 (fun _ => true) false).exitCode = 0 :=
  ((c5_exit_status "linux" true true true "/srv/files" "/backups" "db" "daily" []
    "20250102030405" [] 0 0 3 (fun _ => true) false (fun _ => rfl)).2.2.2
    (by decide) rfl (fun _ => rfl)).2.2 (Or.inl rfl) (by decide)

end Snapback
